import Mathlib

/-!
The expression-group interface of Xyce (`expressionGroup.h`).

A shallow embedding of the class `Xyce::Util::baseExpressionGroup` of
`src/UtilityPKG/ExpressionSrc/expressionGroup.h` and the properties of its default
(inherited) operations.

* A `double` is its IEEE-754 binary64 bit pattern (`Double`); the class performs no
  floating-point arithmetic, it only stores and returns literals.
* A virtual member function is a `Method`: a function from the frame of the call (the
  receiving object, the key arguments, the output parameter) to either a thrown exception
  or the returned value together with the frame after the call.
* The class is its table of virtual functions (`Vtable`), indexed by the operation (`Op`);
  a derived adapter replaces entries of the table (`Vtable.override`), and a call through
  the interface looks the entry up (`Vtable.call`).
* A consumer calls a member on a reference to the base class
  (`baseExpressionGroup.callThrough`): the call reaches the adapter for the members the
  header declares `virtual` (`baseExpressionGroup.isVirtual`).
-/

namespace Xyce
namespace Util

/-! ## Values -/

/-- A C++ `double`: the sign bit, the 11 bit biased exponent and the 52 bit fraction of an
IEEE-754 binary64 value. -/
structure Double where
  sign : Bool
  exponent : Fin 2048
  fraction : Fin 4503599627370496
deriving DecidableEq, Repr

namespace Double

/-- The literal `0.0` (bit pattern `0x0000000000000000`). -/
def zero : Double := ⟨false, 0, 0⟩

/-- The literal `5.0` (bit pattern `0x4014000000000000`). -/
def five : Double := ⟨false, 1025, 1125899906842624⟩

/-- The literal `1.5e-9` (bit pattern `0x3E19C511DC3A41DF`). -/
def lit_1_5em9 : Double := ⟨false, 993, 2749955290317279⟩

/-- The literal `0.707` (bit pattern `0x3FE69FBE76C8B439`). -/
def lit_0_707 : Double := ⟨false, 1022, 1864490245731385⟩

/-- Unary minus on a `double`: flips the sign bit. -/
def neg (d : Double) : Double := { d with sign := !d.sign }

/-- The rational number denoted by a finite `double` (normal or subnormal); the exponent
`2047` (infinities and NaNs) is not a number and is mapped to `0`. -/
def toRat (d : Double) : ℚ :=
  let s : ℚ := if d.sign then -1 else 1
  if d.exponent.val = 2047 then 0
  else if d.exponent.val = 0 then s * (d.fraction.val : ℚ) * (2 : ℚ) ^ (-1074 : ℤ)
  else s * (4503599627370496 + (d.fraction.val : ℚ)) * (2 : ℚ) ^ ((d.exponent.val : ℤ) - 1075)

end Double

/-- A C++ `std::complex<double>`: a real and an imaginary part. -/
structure ComplexDouble where
  re : Double
  im : Double
deriving DecidableEq, Repr

/-- The converting constructor `std::complex<double>(double)`: the imaginary part is `0.0`. -/
def ComplexDouble.ofReal (d : Double) : ComplexDouble := ⟨d, Double.zero⟩

/-! ## Calls -/

/-- An exception propagating out of a member function. -/
structure Thrown where
  what : String
deriving DecidableEq, Repr

/-- The memory a call of a member function can reach: the receiving object `*this`
(of a class with data members `σ`), the key arguments and the output parameter `retval`.
The member functions are not `const` and may write to `*this`; the key arguments are passed
by reference to `const`, and are part of the frame so that their being left alone is a
statement about the function and not about the embedding. -/
structure Frame (σ K V : Type) where
  self : σ
  key : K
  retval : V

/-- A member function with key arguments `K`, output parameter of type `V` and return type
`R`, on an object with data members `σ`. -/
abbrev Method (σ K V R : Type) : Type := StateT (Frame σ K V) (Except Thrown) R

/-- The assignment `retval = v;`. -/
def setRetval {σ K V : Type} (v : V) : Method σ K V Unit :=
  modify fun fr => { fr with retval := v }

/-! ## The class -/

/-- The data members of `class baseExpressionGroup`: there are none (the `private:` section
is empty). The constructor `baseExpressionGroup () {}` is `baseExpressionGroup.mk`. -/
structure baseExpressionGroup where
deriving DecidableEq, Repr

namespace baseExpressionGroup

variable {σ : Type}

/-- Line 32: `bool getSolutionDdt (const std::string & nodeName, double & retval )`. -/
def getSolutionDdt_double : Method σ String Double Bool := do
  setRetval Double.zero
  return false

/-- Line 33: `bool getSolutionVal (const std::string & nodeName, double & retval )`. -/
def getSolutionVal_double : Method σ String Double Bool := do
  setRetval Double.zero
  return false

/-- Line 35: `bool getCurrentVal (const std::string & deviceName,
const std::string & designator, double & retval )`. -/
def getCurrentVal_double : Method σ (String × String) Double Bool := do
  setRetval Double.zero
  return false

/-- Line 37: `bool getInternalDeviceVar (const std::string & deviceName, double & retval )`. -/
def getInternalDeviceVar_double : Method σ String Double Bool := do
  setRetval Double.zero
  return false

/-- Line 38: `bool getInternalDeviceVar (const std::string & deviceName,
std::complex<double> & retval )`. -/
def getInternalDeviceVar_complex : Method σ String ComplexDouble Bool := do
  setRetval (ComplexDouble.mk Double.zero Double.zero)
  return false

/-- Line 40: `bool getDnoNoiseDeviceVar(const std::vector<std::string> & deviceNames,
double & retval)`. -/
def getDnoNoiseDeviceVar_double : Method σ (List String) Double Bool := do
  setRetval Double.zero
  return false

/-- Line 41: `bool getDnoNoiseDeviceVar(const std::vector<std::string> & deviceNames,
std::complex<double> & retval)`. -/
def getDnoNoiseDeviceVar_complex : Method σ (List String) ComplexDouble Bool := do
  setRetval (ComplexDouble.mk Double.zero Double.zero)
  return false

/-- Line 43: `bool getDniNoiseDeviceVar(const std::vector<std::string> & deviceNames,
double & retval)`. -/
def getDniNoiseDeviceVar_double : Method σ (List String) Double Bool := do
  setRetval Double.zero
  return false

/-- Line 44: `bool getDniNoiseDeviceVar(const std::vector<std::string> & deviceNames,
std::complex<double> & retval)`. -/
def getDniNoiseDeviceVar_complex : Method σ (List String) ComplexDouble Bool := do
  setRetval (ComplexDouble.mk Double.zero Double.zero)
  return false

/-- Line 46: `bool getONoise(double & retval)`. -/
def getONoise_double : Method σ Unit Double Bool := do
  setRetval Double.zero
  return false

/-- Line 47: `bool getONoise(std::complex<double> & retval)`. -/
def getONoise_complex : Method σ Unit ComplexDouble Bool := do
  setRetval (ComplexDouble.mk Double.zero Double.zero)
  return false

/-- Line 49: `bool getINoise(double & retval)`. -/
def getINoise_double : Method σ Unit Double Bool := do
  setRetval Double.zero
  return false

/-- Line 50: `bool getINoise(std::complex<double> & retval)`. -/
def getINoise_complex : Method σ Unit ComplexDouble Bool := do
  setRetval (ComplexDouble.mk Double.zero Double.zero)
  return false

/-- Line 52: `bool getPower(const std::string & deviceName, double & retval)`. -/
def getPower_double : Method σ String Double Bool := do
  setRetval Double.zero
  return false

/-- Line 53: `bool getPower(const std::string & deviceName, std::complex<double> & retval)`. -/
def getPower_complex : Method σ String ComplexDouble Bool := do
  setRetval (ComplexDouble.mk Double.zero Double.zero)
  return false

/-- Line 55: `bool getSolutionDdt (const std::string & nodeName,
std::complex<double> & retval )`. -/
def getSolutionDdt_complex : Method σ String ComplexDouble Bool := do
  setRetval (ComplexDouble.mk Double.zero Double.zero)
  return false

/-- Line 56: `bool getSolutionVal(const std::string & nodeName,
std::complex<double> & retval )`. -/
def getSolutionVal_complex : Method σ String ComplexDouble Bool := do
  setRetval (ComplexDouble.mk Double.zero Double.zero)
  return false

/-- Line 58: `bool getCurrentVal( const std::string & deviceName,
const std::string & designator, std::complex<double> & retval )`. -/
def getCurrentVal_complex : Method σ (String × String) ComplexDouble Bool := do
  setRetval (ComplexDouble.mk Double.zero Double.zero)
  return false

/-- Line 60: `bool getGlobalParameterVal (const std::string & nodeName, double & retval )`. -/
def getGlobalParameterVal_double : Method σ String Double Bool := do
  setRetval Double.zero
  return false

/-- Line 61: `bool getGlobalParameterVal (const std::string & nodeName,
std::complex<double> & retval )`. -/
def getGlobalParameterVal_complex : Method σ String ComplexDouble Bool := do
  setRetval (ComplexDouble.mk Double.zero Double.zero)
  return false

/-- Line 63: `bool getSparam (const std::vector<int> & args, double & retval )`. -/
def getSparam_double : Method σ (List Int) Double Bool := do
  setRetval Double.zero
  return false

/-- Line 64: `bool getSparam (const std::vector<int> & args, std::complex<double> & retval )`. -/
def getSparam_complex : Method σ (List Int) ComplexDouble Bool := do
  setRetval (ComplexDouble.mk Double.zero Double.zero)
  return false

/-- Line 66: `bool getYparam (const std::vector<int> & args, double & retval )`. -/
def getYparam_double : Method σ (List Int) Double Bool := do
  setRetval Double.zero
  return false

/-- Line 67: `bool getYparam (const std::vector<int> & args, std::complex<double> & retval )`. -/
def getYparam_complex : Method σ (List Int) ComplexDouble Bool := do
  setRetval (ComplexDouble.mk Double.zero Double.zero)
  return false

/-- Line 69: `bool getZparam (const std::vector<int> & args, double & retval )`. -/
def getZparam_double : Method σ (List Int) Double Bool := do
  setRetval Double.zero
  return false

/-- Line 70: `bool getZparam (const std::vector<int> & args, std::complex<double> & retval )`. -/
def getZparam_complex : Method σ (List Int) ComplexDouble Bool := do
  setRetval (ComplexDouble.mk Double.zero Double.zero)
  return false

/-- Line 72: `double getTimeStep ()`. -/
def getTimeStep : Method σ Unit Unit Double := do
  return Double.zero

/-- Line 74: `double getTimeStepAlpha ()`. -/
def getTimeStepAlpha : Method σ Unit Unit Double := do
  return Double.zero

/-- Line 75: `double getTimeStepPrefac ()`. -/
def getTimeStepPrefac : Method σ Unit Unit Double := do
  return Double.zero

/-- Line 77: `double getTime()`. -/
def getTime : Method σ Unit Unit Double := do
  return Double.zero

/-- Line 78: `double getTemp()`. -/
def getTemp : Method σ Unit Unit Double := do
  return Double.zero

/-- Line 79: `double getVT()`. -/
def getVT : Method σ Unit Unit Double := do
  return Double.zero

/-- Line 80: `double getFreq()`. -/
def getFreq : Method σ Unit Unit Double := do
  return Double.zero

/-- Line 81: `double getGmin()`. -/
def getGmin : Method σ Unit Unit Double := do
  return Double.zero

/-- Line 83: `double getBpTol()`. -/
def getBpTol : Method σ Unit Unit Double := do
  return Double.zero

/-- Line 84: `double getStartingTimeStep()`. -/
def getStartingTimeStep : Method σ Unit Unit Double := do
  return Double.zero

/-- Line 85: `double getFinalTime()`. -/
def getFinalTime : Method σ Unit Unit Double := do
  return Double.zero

/-- Line 87: `unsigned int getStepNumber ()`; an `unsigned int` is a natural number
(below `2 ^ 32`). -/
def getStepNumber : Method σ Unit Unit Nat := do
  return 0

/-- Line 89: `bool getPhaseOutputUsesRadians()`. -/
def getPhaseOutputUsesRadians : Method σ Unit Unit Bool := do
  return true

end baseExpressionGroup

/-! ## The table of virtual functions -/

/-- The logical quantities that have a value query (a real and a complex overload each). -/
inductive Quantity where
  | getSolutionDdt
  | getSolutionVal
  | getCurrentVal
  | getInternalDeviceVar
  | getDnoNoiseDeviceVar
  | getDniNoiseDeviceVar
  | getONoise
  | getINoise
  | getPower
  | getGlobalParameterVal
  | getSparam
  | getYparam
  | getZparam
deriving DecidableEq, Repr, Fintype

/-- The type of the output parameter of a value query: `double &` or
`std::complex<double> &`. -/
inductive Domain where
  | real
  | complex
deriving DecidableEq, Repr, Fintype

/-- The control-value accessors that return a `double`. -/
inductive Control where
  | getTimeStep
  | getTimeStepAlpha
  | getTimeStepPrefac
  | getTime
  | getTemp
  | getVT
  | getFreq
  | getGmin
  | getBpTol
  | getStartingTimeStep
  | getFinalTime
deriving DecidableEq, Repr, Fintype

/-- The virtual member functions of `baseExpressionGroup` (the destructor apart). -/
inductive Op where
  | query (q : Quantity) (d : Domain)
  | control (c : Control)
  | getStepNumber
  | getPhaseOutputUsesRadians
deriving DecidableEq, Repr

/-- The key arguments of the value queries of a quantity: a `std::string`, two of them, a
`std::vector<std::string>`, a `std::vector<int>` (a list of integers; every 32 bit `int` is
one), or none. -/
@[reducible] def Quantity.Key : Quantity → Type
  | .getSolutionDdt => String
  | .getSolutionVal => String
  | .getCurrentVal => String × String
  | .getInternalDeviceVar => String
  | .getDnoNoiseDeviceVar => List String
  | .getDniNoiseDeviceVar => List String
  | .getONoise => Unit
  | .getINoise => Unit
  | .getPower => String
  | .getGlobalParameterVal => String
  | .getSparam => List Int
  | .getYparam => List Int
  | .getZparam => List Int

/-- The values of a domain: `double` or `std::complex<double>`. -/
@[reducible] def Domain.Val : Domain → Type
  | .real => Double
  | .complex => ComplexDouble

/-- The neutral value of a domain: `0.0` or `std::complex<double>(0.0,0.0)`. -/
def Domain.neutral : (d : Domain) → d.Val
  | .real => Double.zero
  | .complex => ComplexDouble.mk Double.zero Double.zero

/-- The key arguments of an operation. -/
@[reducible] def Op.Key : Op → Type
  | .query q _ => q.Key
  | .control _ => Unit
  | .getStepNumber => Unit
  | .getPhaseOutputUsesRadians => Unit

/-- The type of the output parameter of an operation (`Unit` when it has none). -/
@[reducible] def Op.Out : Op → Type
  | .query _ d => d.Val
  | .control _ => Unit
  | .getStepNumber => Unit
  | .getPhaseOutputUsesRadians => Unit

/-- The return type of an operation. -/
@[reducible] def Op.Ret : Op → Type
  | .query _ _ => Bool
  | .control _ => Double
  | .getStepNumber => Nat
  | .getPhaseOutputUsesRadians => Bool

/-- The signature of an operation on an object with data members `σ`. -/
abbrev Op.Sig (σ : Type) (o : Op) : Type := Method σ o.Key o.Out o.Ret

/-- A table of virtual functions: one implementation for each operation. -/
abbrev Vtable (σ : Type) : Type := (o : Op) → o.Sig σ

/-- The table of `baseExpressionGroup` itself: the default implementations, as inherited by
a class with data members `σ`. -/
def baseExpressionGroup.vtable (σ : Type) : Vtable σ
  | .query .getSolutionDdt .real => baseExpressionGroup.getSolutionDdt_double
  | .query .getSolutionVal .real => baseExpressionGroup.getSolutionVal_double
  | .query .getCurrentVal .real => baseExpressionGroup.getCurrentVal_double
  | .query .getInternalDeviceVar .real => baseExpressionGroup.getInternalDeviceVar_double
  | .query .getInternalDeviceVar .complex => baseExpressionGroup.getInternalDeviceVar_complex
  | .query .getDnoNoiseDeviceVar .real => baseExpressionGroup.getDnoNoiseDeviceVar_double
  | .query .getDnoNoiseDeviceVar .complex => baseExpressionGroup.getDnoNoiseDeviceVar_complex
  | .query .getDniNoiseDeviceVar .real => baseExpressionGroup.getDniNoiseDeviceVar_double
  | .query .getDniNoiseDeviceVar .complex => baseExpressionGroup.getDniNoiseDeviceVar_complex
  | .query .getONoise .real => baseExpressionGroup.getONoise_double
  | .query .getONoise .complex => baseExpressionGroup.getONoise_complex
  | .query .getINoise .real => baseExpressionGroup.getINoise_double
  | .query .getINoise .complex => baseExpressionGroup.getINoise_complex
  | .query .getPower .real => baseExpressionGroup.getPower_double
  | .query .getPower .complex => baseExpressionGroup.getPower_complex
  | .query .getSolutionDdt .complex => baseExpressionGroup.getSolutionDdt_complex
  | .query .getSolutionVal .complex => baseExpressionGroup.getSolutionVal_complex
  | .query .getCurrentVal .complex => baseExpressionGroup.getCurrentVal_complex
  | .query .getGlobalParameterVal .real => baseExpressionGroup.getGlobalParameterVal_double
  | .query .getGlobalParameterVal .complex => baseExpressionGroup.getGlobalParameterVal_complex
  | .query .getSparam .real => baseExpressionGroup.getSparam_double
  | .query .getSparam .complex => baseExpressionGroup.getSparam_complex
  | .query .getYparam .real => baseExpressionGroup.getYparam_double
  | .query .getYparam .complex => baseExpressionGroup.getYparam_complex
  | .query .getZparam .real => baseExpressionGroup.getZparam_double
  | .query .getZparam .complex => baseExpressionGroup.getZparam_complex
  | .control .getTimeStep => baseExpressionGroup.getTimeStep
  | .control .getTimeStepAlpha => baseExpressionGroup.getTimeStepAlpha
  | .control .getTimeStepPrefac => baseExpressionGroup.getTimeStepPrefac
  | .control .getTime => baseExpressionGroup.getTime
  | .control .getTemp => baseExpressionGroup.getTemp
  | .control .getVT => baseExpressionGroup.getVT
  | .control .getFreq => baseExpressionGroup.getFreq
  | .control .getGmin => baseExpressionGroup.getGmin
  | .control .getBpTol => baseExpressionGroup.getBpTol
  | .control .getStartingTimeStep => baseExpressionGroup.getStartingTimeStep
  | .control .getFinalTime => baseExpressionGroup.getFinalTime
  | .getStepNumber => baseExpressionGroup.getStepNumber
  | .getPhaseOutputUsesRadians => baseExpressionGroup.getPhaseOutputUsesRadians

/-- The value queries of `baseExpressionGroup` in the order of their declaration
(lines 32 to 70 of the header). -/
def baseExpressionGroup.valueQueries : List (Quantity × Domain) :=
  [ (.getSolutionDdt, .real), (.getSolutionVal, .real), (.getCurrentVal, .real),
    (.getInternalDeviceVar, .real), (.getInternalDeviceVar, .complex),
    (.getDnoNoiseDeviceVar, .real), (.getDnoNoiseDeviceVar, .complex),
    (.getDniNoiseDeviceVar, .real), (.getDniNoiseDeviceVar, .complex),
    (.getONoise, .real), (.getONoise, .complex),
    (.getINoise, .real), (.getINoise, .complex),
    (.getPower, .real), (.getPower, .complex),
    (.getSolutionDdt, .complex), (.getSolutionVal, .complex), (.getCurrentVal, .complex),
    (.getGlobalParameterVal, .real), (.getGlobalParameterVal, .complex),
    (.getSparam, .real), (.getSparam, .complex),
    (.getYparam, .real), (.getYparam, .complex),
    (.getZparam, .real), (.getZparam, .complex) ]

/-- A derived class that overrides the operation `o` with `impl` and inherits the rest. -/
def Vtable.override {σ : Type} (vt : Vtable σ) (o : Op) (impl : o.Sig σ) : Vtable σ :=
  Function.update vt o impl

/-- A call of the operation `o` through the interface: virtual dispatch. -/
def Vtable.call {σ : Type} (vt : Vtable σ) (o : Op) : o.Sig σ :=
  vt o

/-- Whether the header declares the member function with the `virtual` specifier; the
declarations of lines 32 to 89 all begin with `virtual`. -/
def baseExpressionGroup.isVirtual : Op → Bool
  | .query .getSolutionDdt .real => true
  | .query .getSolutionVal .real => true
  | .query .getCurrentVal .real => true
  | .query .getInternalDeviceVar .real => true
  | .query .getInternalDeviceVar .complex => true
  | .query .getDnoNoiseDeviceVar .real => true
  | .query .getDnoNoiseDeviceVar .complex => true
  | .query .getDniNoiseDeviceVar .real => true
  | .query .getDniNoiseDeviceVar .complex => true
  | .query .getONoise .real => true
  | .query .getONoise .complex => true
  | .query .getINoise .real => true
  | .query .getINoise .complex => true
  | .query .getPower .real => true
  | .query .getPower .complex => true
  | .query .getSolutionDdt .complex => true
  | .query .getSolutionVal .complex => true
  | .query .getCurrentVal .complex => true
  | .query .getGlobalParameterVal .real => true
  | .query .getGlobalParameterVal .complex => true
  | .query .getSparam .real => true
  | .query .getSparam .complex => true
  | .query .getYparam .real => true
  | .query .getYparam .complex => true
  | .query .getZparam .real => true
  | .query .getZparam .complex => true
  | .control .getTimeStep => true
  | .control .getTimeStepAlpha => true
  | .control .getTimeStepPrefac => true
  | .control .getTime => true
  | .control .getTemp => true
  | .control .getVT => true
  | .control .getFreq => true
  | .control .getGmin => true
  | .control .getBpTol => true
  | .control .getStartingTimeStep => true
  | .control .getFinalTime => true
  | .getStepNumber => true
  | .getPhaseOutputUsesRadians => true

/-- The call `group.o(...)` that a consumer makes on a reference of static type
`baseExpressionGroup &` to an object of an adapter class with the member functions `vt`.
The name is looked up in `baseExpressionGroup`: a member declared `virtual` there is
dispatched to the function of the adapter, a member that is not is bound statically to the
body written in the header, whatever the adapter declares under that name. The header puts
no function between the consumer and the member: the public members are the virtual
functions themselves. -/
def baseExpressionGroup.callThrough {σ : Type} (vt : Vtable σ) (o : Op) : o.Sig σ :=
  if baseExpressionGroup.isVirtual o then vt.call o
  else (baseExpressionGroup.vtable σ).call o

/-! ## Sequences of calls -/

/-- One call through the interface: the operation, the key arguments passed and the content
of the output parameter before the call. -/
structure Call where
  op : Op
  key : op.Key
  retval : op.Out

/-- Performs the call `c` on the object `s`. -/
def Vtable.invoke {σ : Type} (vt : Vtable σ) (c : Call) (s : σ) :
    Except Thrown (c.op.Ret × Frame σ c.op.Key c.op.Out) :=
  vt.call c.op { self := s, key := c.key, retval := c.retval }

/-- What the caller of `c` observes: the returned value and the content of the output
parameter after the call. -/
def Vtable.observe {σ : Type} (vt : Vtable σ) (c : Call) (s : σ) :
    Except Thrown (c.op.Ret × c.op.Out) :=
  match vt.invoke c s with
  | .ok (r, fr) => .ok (r, fr.retval)
  | .error e => .error e

/-- Performs the calls of a list one after the other on the object `s`; the result is the
object after the last call (or the first exception thrown). -/
def Vtable.runCalls {σ : Type} (vt : Vtable σ) : List Call → σ → Except Thrown σ
  | [], s => .ok s
  | c :: cs, s =>
    match vt.invoke c s with
    | .ok (_, fr) => vt.runCalls cs fr.self
    | .error e => .error e

/-! ## Adapters used in the scenarios -/

/-- An overriding value query that answers every key with `(true, v)`: the body
`retval = v; return true;`. -/
def answer {σ K V : Type} (v : V) : Method σ K V Bool := do
  setRetval v
  return true

/-- An overriding value query that answers the key `k` with `(true, v)` and delegates every
other key to the implementation `base` of the base class. -/
def answerAt {σ K V : Type} [DecidableEq K] (k : K) (v : V) (base : Method σ K V Bool) :
    Method σ K V Bool := do
  if (← get).key = k then
    setRetval v
    return true
  else
    base

/-- Scenario 1: an adapter that overrides only the real overload of `getSolutionVal`, giving
`(true, 5.0)` for the node `"1"`. -/
def nodeOneAdapter : Vtable baseExpressionGroup :=
  (baseExpressionGroup.vtable baseExpressionGroup).override (.query .getSolutionVal .real)
    (answerAt (K := String) "1" Double.five baseExpressionGroup.getSolutionVal_double)

/-- Scenario 3: an adapter that overrides only `getTime`, with the body `return 1.5e-9;`. -/
def timeAdapter : Vtable baseExpressionGroup :=
  (baseExpressionGroup.vtable baseExpressionGroup).override (.control .getTime)
    (pure Double.lit_1_5em9)

/-- Scenario 4: an adapter that overrides only the complex overload of `getSparam`, giving
`(true, complex(0.707, -0.707))` for the port-index list `{1,2}`. -/
def sparamAdapter : Vtable baseExpressionGroup :=
  (baseExpressionGroup.vtable baseExpressionGroup).override (.query .getSparam .complex)
    (answerAt (K := List Int) [1, 2] (ComplexDouble.mk Double.lit_0_707 Double.lit_0_707.neg)
      baseExpressionGroup.getSparam_complex)

/-! ## Boolean results -/

/-- The boolean an operation returned, for the operations whose return type is `bool`
(the value queries and `getPhaseOutputUsesRadians`); `none` for the others. -/
def Op.boolResult : (o : Op) → o.Ret → Option Bool
  | .query _ _, b => some b
  | .control _, _ => none
  | .getStepNumber, _ => none
  | .getPhaseOutputUsesRadians, b => some b

/-- The boolean that a call of `o` returns to its caller, if `o` returns a boolean and the
call returns normally. -/
def Vtable.boolReturned {σ : Type} (vt : Vtable σ) (o : Op) (fr : Frame σ o.Key o.Out) :
    Option Bool :=
  match vt.call o fr with
  | .ok (r, _) => o.boolResult r
  | .error _ => none

/-! ## Properties of the embedding -/

/-- The literals denote the numbers they are written as: `0.0` and `5.0` exactly. -/
theorem Double.toRat_zero_five : Double.zero.toRat = 0 ∧ Double.five.toRat = 5 := by
  constructor
  · simp [Double.toRat, Double.zero]
  · have h1 : ((1025 : Fin 2048) : ℕ) = 1025 := rfl
    have h2 : ((1125899906842624 : Fin 4503599627370496) : ℕ) = 1125899906842624 := rfl
    simp only [Double.toRat, Double.five, h1, h2]
    norm_num

/-- The literal `1.5e-9` is the `double` nearest to the number 1.5e-9 (within half a unit in
the last place, `2 ^ (-83)`), and `0.707` the one nearest to 0.707 (within `2 ^ (-54)`);
`-0.707` is its negative. -/
theorem Double.toRat_decimal_literals :
    |Double.lit_1_5em9.toRat - 15 / 10000000000| ≤ (2 : ℚ) ^ (-83 : ℤ) ∧
    |Double.lit_0_707.toRat - 707 / 1000| ≤ (2 : ℚ) ^ (-54 : ℤ) ∧
    Double.lit_0_707.neg.toRat = - Double.lit_0_707.toRat := by
  have h1 : ((993 : Fin 2048) : ℕ) = 993 := rfl
  have h2 : ((2749955290317279 : Fin 4503599627370496) : ℕ) = 2749955290317279 := rfl
  have h3 : ((1022 : Fin 2048) : ℕ) = 1022 := rfl
  have h4 : ((1864490245731385 : Fin 4503599627370496) : ℕ) = 1864490245731385 := rfl
  refine ⟨?_, ?_, ?_⟩
  · simp only [Double.toRat, Double.lit_1_5em9, h1, h2]
    rw [abs_le]
    norm_num
  · simp only [Double.toRat, Double.lit_0_707, h3, h4]
    rw [abs_le]
    norm_num
  · simp only [Double.toRat, Double.lit_0_707, Double.neg, h3, h4]
    norm_num

/-- Every default value query returns `false` and stores the neutral value of its domain in
the output parameter, leaving the rest of the frame as it was. -/
theorem baseExpressionGroup.vtable_query (σ : Type) (q : Quantity) (d : Domain)
    (fr : Frame σ q.Key d.Val) :
    baseExpressionGroup.vtable σ (.query q d) fr
      = .ok (false, { fr with retval := d.neutral }) := by
  cases q <;> cases d <;> rfl

/-- Every default control-value accessor returns `0.0` and leaves the frame as it was. -/
theorem baseExpressionGroup.vtable_control (σ : Type) (c : Control) (fr : Frame σ Unit Unit) :
    baseExpressionGroup.vtable σ (.control c) fr = .ok (Double.zero, fr) := by
  cases c <;> rfl

/-- The default `getStepNumber` returns `0` and leaves the frame as it was. -/
theorem baseExpressionGroup.vtable_getStepNumber (σ : Type) (fr : Frame σ Unit Unit) :
    baseExpressionGroup.vtable σ .getStepNumber fr = .ok ((0 : Nat), fr) := rfl

/-- The default `getPhaseOutputUsesRadians` returns `true` and leaves the frame as it was. -/
theorem baseExpressionGroup.vtable_getPhaseOutputUsesRadians (σ : Type)
    (fr : Frame σ Unit Unit) :
    baseExpressionGroup.vtable σ .getPhaseOutputUsesRadians fr = .ok (true, fr) := rfl

/-- A call of an overridden operation runs the override. -/
theorem Vtable.call_override_same {σ : Type} (vt : Vtable σ) (o : Op) (impl : o.Sig σ) :
    (vt.override o impl).call o = impl := by
  simp [Vtable.call, Vtable.override]

/-- A call of an operation other than the overridden one runs the inherited
implementation. -/
theorem Vtable.call_override_other {σ : Type} (vt : Vtable σ) (o o' : Op) (impl : o.Sig σ)
    (h : o' ≠ o) : (vt.override o impl).call o' = vt.call o' := by
  simp [Vtable.call, Vtable.override, Function.update_noteq h]

/-- Every member function of the header is declared `virtual`. -/
theorem baseExpressionGroup.isVirtual_eq_true (o : Op) :
    baseExpressionGroup.isVirtual o = true := by
  cases o with
  | query q d => cases q <;> cases d <;> rfl
  | control c => cases c <;> rfl
  | getStepNumber => rfl
  | getPhaseOutputUsesRadians => rfl

/-- A call through a reference to the base class runs the function of the adapter. -/
theorem baseExpressionGroup.callThrough_eq_call {σ : Type} (vt : Vtable σ) (o : Op) :
    baseExpressionGroup.callThrough vt o = vt.call o := by
  simp [baseExpressionGroup.callThrough, baseExpressionGroup.isVirtual_eq_true]

/-- The value queries listed in declaration order are all the pairs of a quantity and a
domain, each once. -/
theorem baseExpressionGroup.valueQueries_complete :
    baseExpressionGroup.valueQueries.Nodup ∧
      ∀ (q : Quantity) (d : Domain), (q, d) ∈ baseExpressionGroup.valueQueries := by
  refine ⟨by decide, ?_⟩
  intro q d
  cases q <;> cases d <;> decide

/-- Every default operation returns normally, with a value that depends on the operation
only, and changes nothing of the frame but the output parameter, whose new content is
determined by the operation and the old content. -/
theorem baseExpressionGroup.vtable_effect (o : Op) :
    ∃ (r : o.Ret) (f : o.Out → o.Out), ∀ (σ : Type) (fr : Frame σ o.Key o.Out),
      baseExpressionGroup.vtable σ o fr = .ok (r, { fr with retval := f fr.retval }) := by
  cases o with
  | query q d =>
    exact ⟨false, fun _ => d.neutral, fun σ fr => baseExpressionGroup.vtable_query σ q d fr⟩
  | control c =>
    exact ⟨Double.zero, id, fun σ fr => baseExpressionGroup.vtable_control σ c fr⟩
  | getStepNumber =>
    exact ⟨(0 : Nat), id, fun σ fr => baseExpressionGroup.vtable_getStepNumber σ fr⟩
  | getPhaseOutputUsesRadians =>
    exact ⟨true, id, fun σ fr => baseExpressionGroup.vtable_getPhaseOutputUsesRadians σ fr⟩

/-- A default call returns normally and leaves the receiving object as it was. -/
theorem baseExpressionGroup.invoke_self (σ : Type) (c : Call) (s : σ) :
    ∃ (r : c.op.Ret) (fr : Frame σ c.op.Key c.op.Out),
      (baseExpressionGroup.vtable σ).invoke c s = .ok (r, fr) ∧ fr.self = s := by
  obtain ⟨r, f, hrf⟩ := baseExpressionGroup.vtable_effect c.op
  exact ⟨r, _, hrf σ { self := s, key := c.key, retval := c.retval }, rfl⟩

/-- A sequence of default calls returns normally and leaves the receiving object as it
was. -/
theorem baseExpressionGroup.runCalls_self (σ : Type) (pre : List Call) (s : σ) :
    (baseExpressionGroup.vtable σ).runCalls pre s = .ok s := by
  induction pre with
  | nil => rfl
  | cons c cs ih =>
    obtain ⟨r, fr, hfr, hself⟩ := baseExpressionGroup.invoke_self σ c s
    simp only [Vtable.runCalls, hfr]
    rw [hself]
    exact ih

/-- What a default call lets its caller observe does not depend on the receiving object. -/
theorem baseExpressionGroup.observe_indep (σ : Type) (c : Call) (s₁ s₂ : σ) :
    (baseExpressionGroup.vtable σ).observe c s₁
      = (baseExpressionGroup.vtable σ).observe c s₂ := by
  obtain ⟨r, f, hrf⟩ := baseExpressionGroup.vtable_effect c.op
  have h₁ := hrf σ { self := s₁, key := c.key, retval := c.retval }
  have h₂ := hrf σ { self := s₂, key := c.key, retval := c.retval }
  simp only [Vtable.observe, Vtable.invoke, Vtable.call, h₁, h₂]

/-! ## The claims -/

/-- C1, as stated: the value queries of `baseExpressionGroup` number 28 and each of them
returns `false` with the neutral output by default. This fails: the header declares 26
value queries (13 quantities with a real and a complex overload each). -/
theorem value_queries_not_28 :
    ¬ (baseExpressionGroup.valueQueries.length = 28 ∧
        ∀ (σ : Type) (q : Quantity) (d : Domain) (fr : Frame σ q.Key d.Val),
          (baseExpressionGroup.vtable σ).call (.query q d) fr
            = .ok (false, { fr with retval := d.neutral })) := by
  intro h
  exact absurd h.1 (by decide)

/-- C1, amended: `baseExpressionGroup` has 26 value queries, the real and the complex
overload of 13 quantities, and for each of them, for every key argument, every receiving
object and every prior content of the output parameter, the default implementation returns
`false` and leaves the output parameter equal to the neutral value of its domain (`0.0` or
`(0.0, 0.0)`), the rest of the frame being as before. In particular the real
`getCurrentVal("R1", "I", out)` yields `(false, 0.0)`. -/
theorem value_query_defaults :
    baseExpressionGroup.valueQueries.length = 26 ∧
    Fintype.card (Quantity × Domain) = 26 ∧
    (∀ (q : Quantity) (d : Domain), (q, d) ∈ baseExpressionGroup.valueQueries) ∧
    (∀ (σ : Type) (q : Quantity) (d : Domain) (fr : Frame σ q.Key d.Val),
      (baseExpressionGroup.vtable σ).call (.query q d) fr
        = .ok (false, { fr with retval := d.neutral })) ∧
    Domain.neutral .real = Double.zero ∧
    Domain.neutral .complex = ComplexDouble.mk Double.zero Double.zero ∧
    (∀ (σ : Type) (s : σ) (prior : Double),
      (baseExpressionGroup.vtable σ).call (.query .getCurrentVal .real)
          { self := s, key := ("R1", "I"), retval := prior }
        = .ok (false, { self := s, key := ("R1", "I"), retval := Double.zero })) := by
  refine ⟨by decide, by decide, baseExpressionGroup.valueQueries_complete.2, ?_, rfl, rfl, ?_⟩
  · intro σ q d fr
    exact baseExpressionGroup.vtable_query σ q d fr
  · intro σ s prior
    rfl

/-- C2: each of the eleven control-value accessors that return a `double` returns exactly
`0.0` by default, and `getStepNumber` returns the unsigned integer `0`; there is no boolean,
and the frame of the call is left as it was. -/
theorem control_accessor_defaults (σ : Type) (fr : Frame σ Unit Unit) :
    baseExpressionGroup.getTimeStep fr = .ok (Double.zero, fr) ∧
    baseExpressionGroup.getTimeStepAlpha fr = .ok (Double.zero, fr) ∧
    baseExpressionGroup.getTimeStepPrefac fr = .ok (Double.zero, fr) ∧
    baseExpressionGroup.getTime fr = .ok (Double.zero, fr) ∧
    baseExpressionGroup.getTemp fr = .ok (Double.zero, fr) ∧
    baseExpressionGroup.getVT fr = .ok (Double.zero, fr) ∧
    baseExpressionGroup.getFreq fr = .ok (Double.zero, fr) ∧
    baseExpressionGroup.getGmin fr = .ok (Double.zero, fr) ∧
    baseExpressionGroup.getBpTol fr = .ok (Double.zero, fr) ∧
    baseExpressionGroup.getStartingTimeStep fr = .ok (Double.zero, fr) ∧
    baseExpressionGroup.getFinalTime fr = .ok (Double.zero, fr) ∧
    baseExpressionGroup.getStepNumber fr = .ok ((0 : Nat), fr) ∧
    (∀ c : Control,
      (baseExpressionGroup.vtable σ).call (.control c) fr = .ok (Double.zero, fr)) ∧
    (baseExpressionGroup.vtable σ).call .getStepNumber fr = .ok ((0 : Nat), fr) ∧
    Fintype.card Control = 11 := by
  refine ⟨rfl, rfl, rfl, rfl, rfl, rfl, rfl, rfl, rfl, rfl, rfl, rfl, ?_, rfl, by decide⟩
  intro c
  exact baseExpressionGroup.vtable_control σ c fr

/-- C3: the default `getPhaseOutputUsesRadians` returns `true`, and it is the only default
operation returning a boolean that returns `true`: every default value query returns `false`
(the remaining operations return no boolean). -/
theorem phase_flag_default (σ : Type) :
    (∀ fr : Frame σ Unit Unit,
      baseExpressionGroup.getPhaseOutputUsesRadians fr = .ok (true, fr)) ∧
    (∀ fr : Frame σ Unit Unit,
      (baseExpressionGroup.vtable σ).boolReturned .getPhaseOutputUsesRadians fr = some true) ∧
    (∀ (q : Quantity) (d : Domain) (fr : Frame σ q.Key d.Val),
      (baseExpressionGroup.vtable σ).boolReturned (.query q d) fr = some false) ∧
    (∀ (o : Op) (fr : Frame σ o.Key o.Out),
      (baseExpressionGroup.vtable σ).boolReturned o fr = some true
        ↔ o = .getPhaseOutputUsesRadians) := by
  have hq : ∀ (q : Quantity) (d : Domain) (fr : Frame σ q.Key d.Val),
      (baseExpressionGroup.vtable σ).boolReturned (.query q d) fr = some false := by
    intro q d fr
    simp only [Vtable.boolReturned, Vtable.call]
    rw [baseExpressionGroup.vtable_query σ q d fr]
    rfl
  refine ⟨fun _ => rfl, fun _ => rfl, hq, ?_⟩
  intro o fr
  cases o with
  | query q d => simp [hq q d fr]
  | control c =>
    simp only [Vtable.boolReturned, Vtable.call]
    rw [baseExpressionGroup.vtable_control σ c fr]
    simp [Op.boolResult]
  | getStepNumber =>
    simp only [Vtable.boolReturned, Vtable.call]
    rw [baseExpressionGroup.vtable_getStepNumber σ fr]
    simp [Op.boolResult]
  | getPhaseOutputUsesRadians =>
    simp only [Vtable.boolReturned, Vtable.call]
    rw [baseExpressionGroup.vtable_getPhaseOutputUsesRadians σ fr]
    simp [Op.boolResult]

/-- C4: in an adapter that overrides exactly one operation `o` of `baseExpressionGroup`,
every other operation `o'` behaves as the default of the base class on every frame. In
particular, whatever overrides the real overload of a quantity, its complex overload still
gives `(false, (0.0, 0.0))`, and whatever overrides the complex overload, the real one still
gives `(false, 0.0)`. -/
theorem override_leaves_others (σ : Type) (o o' : Op) (impl : o.Sig σ) (h : o' ≠ o)
    (q : Quantity) :
    (∀ fr : Frame σ o'.Key o'.Out,
      ((baseExpressionGroup.vtable σ).override o impl).call o' fr
        = (baseExpressionGroup.vtable σ).call o' fr) ∧
    (∀ (implR : (Op.query q .real).Sig σ) (fr : Frame σ q.Key ComplexDouble),
      ((baseExpressionGroup.vtable σ).override (.query q .real) implR).call
          (.query q .complex) fr
        = .ok (false, { fr with retval := ComplexDouble.mk Double.zero Double.zero })) ∧
    (∀ (implC : (Op.query q .complex).Sig σ) (fr : Frame σ q.Key Double),
      ((baseExpressionGroup.vtable σ).override (.query q .complex) implC).call
          (.query q .real) fr
        = .ok (false, { fr with retval := Double.zero })) := by
  refine ⟨?_, ?_, ?_⟩
  · intro fr
    rw [Vtable.call_override_other _ o o' impl h]
  · intro implR fr
    rw [Vtable.call_override_other _ _ _ implR (by simp)]
    exact baseExpressionGroup.vtable_query σ q .complex fr
  · intro implC fr
    rw [Vtable.call_override_other _ _ _ implC (by simp)]
    exact baseExpressionGroup.vtable_query σ q .real fr

/-- C4 at scenario 1: the adapter that overrides only the real `getSolutionVal`, answering
the node `"1"` with `(true, 5.0)`, still answers the complex `getSolutionVal("1")` with
`(false, (0.0, 0.0))`, while the real overload gives `(true, 5.0)`. -/
theorem override_leaves_others_nodeOne :
    Op.query .getSolutionVal .complex ≠ Op.query .getSolutionVal .real ∧
    nodeOneAdapter.call (.query .getSolutionVal .complex)
        { self := baseExpressionGroup.mk, key := "1",
          retval := ComplexDouble.mk Double.five Double.five }
      = .ok (false, { self := baseExpressionGroup.mk, key := "1",
                      retval := ComplexDouble.mk Double.zero Double.zero }) ∧
    nodeOneAdapter.call (.query .getSolutionVal .real)
        { self := baseExpressionGroup.mk, key := "1", retval := Double.zero }
      = .ok (true, { self := baseExpressionGroup.mk, key := "1", retval := Double.five }) := by
  refine ⟨by decide, ?_, ?_⟩
  · have h := (override_leaves_others baseExpressionGroup (.query .getSolutionVal .real)
      (.query .getSolutionVal .complex)
      (answerAt (K := String) "1" Double.five baseExpressionGroup.getSolutionVal_double)
      (by decide) .getSolutionVal).1
      { self := baseExpressionGroup.mk, key := "1",
        retval := ComplexDouble.mk Double.five Double.five }
    exact h
  · rfl

/-- C5: every operation of the header is declared `virtual`, so for every adapter that
overrides an operation `o` with `impl`, the call of `o` that a consumer makes through a
reference to `baseExpressionGroup` runs `impl` and hands its result to the caller as it is.
A value query overridden to give `(true, v)` lets the caller observe `true` and the output
`v`, for every `v`, and not the `false` of the default it replaces; a control accessor
overridden to return `c` lets the caller observe `c`; the adapter overriding `getTime` to
return `1.5e-9` yields exactly `1.5e-9`, where the class without the override yields `0.0`. -/
theorem override_observed_unchanged (σ : Type) (vt : Vtable σ) (o : Op) (impl : o.Sig σ) :
    baseExpressionGroup.isVirtual o = true ∧
    baseExpressionGroup.callThrough (vt.override o impl) o = impl ∧
    (∀ (q : Quantity) (d : Domain) (v : d.Val) (fr : Frame σ q.Key d.Val),
      baseExpressionGroup.callThrough (vt.override (.query q d) (answer v)) (.query q d) fr
        = .ok (true, { fr with retval := v }) ∧
      baseExpressionGroup.callThrough (vt.override (.query q d) (answer v)) (.query q d) fr
        ≠ baseExpressionGroup.callThrough (baseExpressionGroup.vtable σ) (.query q d) fr) ∧
    (∀ (c : Control) (x : Double) (fr : Frame σ Unit Unit),
      baseExpressionGroup.callThrough (vt.override (.control c) (pure x)) (.control c) fr
        = .ok (x, fr)) ∧
    (∀ fr : Frame baseExpressionGroup Unit Unit,
      baseExpressionGroup.callThrough timeAdapter (.control .getTime) fr
        = .ok (Double.lit_1_5em9, fr) ∧
      baseExpressionGroup.callThrough (baseExpressionGroup.vtable baseExpressionGroup)
          (.control .getTime) fr
        = .ok (Double.zero, fr)) ∧
    Double.lit_1_5em9 ≠ Double.zero := by
  refine ⟨baseExpressionGroup.isVirtual_eq_true o, ?_, ?_, ?_, ?_, by decide⟩
  · rw [baseExpressionGroup.callThrough_eq_call, Vtable.call_override_same]
  · intro q d v fr
    have hov : baseExpressionGroup.callThrough (vt.override (.query q d) (answer v))
        (.query q d) fr = .ok (true, { fr with retval := v }) := by
      rw [baseExpressionGroup.callThrough_eq_call, Vtable.call_override_same]
      rfl
    have hbase : baseExpressionGroup.callThrough (baseExpressionGroup.vtable σ)
        (.query q d) fr = .ok (false, { fr with retval := d.neutral }) := by
      rw [baseExpressionGroup.callThrough_eq_call]
      exact baseExpressionGroup.vtable_query σ q d fr
    refine ⟨hov, ?_⟩
    rw [hov, hbase]
    intro heq
    have hb : true = false := congrArg Prod.fst (Except.ok.inj heq)
    exact Bool.noConfusion hb
  · intro c x fr
    rw [baseExpressionGroup.callThrough_eq_call, Vtable.call_override_same]
    rfl
  · intro fr
    constructor
    · rw [baseExpressionGroup.callThrough_eq_call]
      unfold timeAdapter
      rw [Vtable.call_override_same]
      rfl
    · rw [baseExpressionGroup.callThrough_eq_call]
      exact baseExpressionGroup.vtable_control baseExpressionGroup .getTime fr

/-- C6: the port-index list is an ordered key. The adapter whose complex `getSparam`
answers `{1,2}` with `(true, complex(0.707, -0.707))` and delegates the other lists to the
base default answers `{2,1}` with `(false, (0.0, 0.0))` and `{1,2}` with
`(true, complex(0.707, -0.707))`; and the interface hands the list to an override as it was
passed: the overriding implementation runs on the frame of the caller. -/
theorem sparam_key_is_ordered (s : baseExpressionGroup) (prior : ComplexDouble) :
    sparamAdapter.call (.query .getSparam .complex)
        { self := s, key := ([2, 1] : List Int), retval := prior }
      = .ok (false, { self := s, key := ([2, 1] : List Int),
                      retval := ComplexDouble.mk Double.zero Double.zero }) ∧
    sparamAdapter.call (.query .getSparam .complex)
        { self := s, key := ([1, 2] : List Int), retval := prior }
      = .ok (true, { self := s, key := ([1, 2] : List Int),
                     retval := ComplexDouble.mk Double.lit_0_707 Double.lit_0_707.neg }) ∧
    ([2, 1] : List Int) ≠ [1, 2] ∧
    (∀ (σ : Type) (vt : Vtable σ) (impl : (Op.query .getSparam .complex).Sig σ)
        (fr : Frame σ (List Int) ComplexDouble),
      (vt.override (.query .getSparam .complex) impl).call (.query .getSparam .complex) fr
        = impl fr) ∧
    (∀ (σ : Type) (fr : Frame σ (List Int) ComplexDouble),
      ∃ fr2, (baseExpressionGroup.vtable σ).call (.query .getSparam .complex) fr
          = .ok (false, fr2) ∧ fr2.key = fr.key) := by
  refine ⟨?_, ?_, by decide, ?_, ?_⟩
  · unfold sparamAdapter
    rw [Vtable.call_override_same]
    rfl
  · unfold sparamAdapter
    rw [Vtable.call_override_same]
    rfl
  · intro σ vt impl fr
    rw [Vtable.call_override_same]
  · intro σ fr
    exact ⟨_, baseExpressionGroup.vtable_query σ .getSparam .complex fr, rfl⟩

/-- C7: no default operation throws: on every frame every default operation returns
normally (it is never an exception), and a default value query signals that the quantity is
unavailable by returning `false` with the neutral value in the output parameter. -/
theorem defaults_never_throw (σ : Type) (o : Op) (fr : Frame σ o.Key o.Out) :
    (∃ (r : o.Ret) (fr2 : Frame σ o.Key o.Out),
      (baseExpressionGroup.vtable σ).call o fr = .ok (r, fr2)) ∧
    (∀ e : Thrown, (baseExpressionGroup.vtable σ).call o fr ≠ .error e) ∧
    (∀ (q : Quantity) (d : Domain) (fq : Frame σ q.Key d.Val),
      (baseExpressionGroup.vtable σ).call (.query q d) fq
        = .ok (false, { fq with retval := d.neutral })) := by
  obtain ⟨r, f, hrf⟩ := baseExpressionGroup.vtable_effect o
  have hcall : (baseExpressionGroup.vtable σ).call o fr
      = .ok (r, { fr with retval := f fr.retval }) := hrf σ fr
  refine ⟨⟨r, _, hcall⟩, ?_, ?_⟩
  · intro e he
    rw [hcall] at he
    cases he
  · intro q d fq
    exact baseExpressionGroup.vtable_query σ q d fq

/-- C8: the default operations are order-independent. After any finite sequence `pre` of
default calls (which returns normally), a default call `c` lets its caller observe the same
returned value and the same output as when it is made first; what is observed depends
neither on the calls made before nor on the receiving object. -/
theorem defaults_order_independent (σ : Type) (pre : List Call) (c : Call) (s : σ) :
    (∃ s2 : σ, (baseExpressionGroup.vtable σ).runCalls pre s = .ok s2 ∧
      (baseExpressionGroup.vtable σ).observe c s2
        = (baseExpressionGroup.vtable σ).observe c s) ∧
    (∃ (r : c.op.Ret) (v : c.op.Out),
      (baseExpressionGroup.vtable σ).observe c s = .ok (r, v)) ∧
    (∀ pre2 : List Call,
      ((baseExpressionGroup.vtable σ).runCalls pre s >>=
          (baseExpressionGroup.vtable σ).observe c)
        = ((baseExpressionGroup.vtable σ).runCalls pre2 s >>=
          (baseExpressionGroup.vtable σ).observe c)) ∧
    (∀ s₁ s₂ : σ, (baseExpressionGroup.vtable σ).observe c s₁
        = (baseExpressionGroup.vtable σ).observe c s₂) := by
  refine ⟨⟨s, baseExpressionGroup.runCalls_self σ pre s, rfl⟩, ?_, ?_,
    baseExpressionGroup.observe_indep σ c⟩
  · obtain ⟨r, fr, hfr, _⟩ := baseExpressionGroup.invoke_self σ c s
    exact ⟨r, fr.retval, by simp only [Vtable.observe, hfr]⟩
  · intro pre2
    rw [baseExpressionGroup.runCalls_self σ pre s, baseExpressionGroup.runCalls_self σ pre2 s]

/-- C9: every default operation is read-only. `baseExpressionGroup` has no data members
(any two objects of the class are equal); a default call returns normally with the receiving
object and the key arguments as they were before, the frame after the call differing from
the frame before in the output parameter at most; the operations without an output
parameter leave the whole frame as it was, and so does any sequence of default calls leave
the object. -/
theorem defaults_read_only (σ : Type) (o : Op) (fr : Frame σ o.Key o.Out) :
    (∀ a b : baseExpressionGroup, a = b) ∧
    (∃ (r : o.Ret) (fr2 : Frame σ o.Key o.Out),
      (baseExpressionGroup.vtable σ).call o fr = .ok (r, fr2) ∧
      fr2.self = fr.self ∧ fr2.key = fr.key ∧ fr2 = { fr with retval := fr2.retval }) ∧
    (∀ (c : Control) (f0 : Frame σ Unit Unit),
      ∃ r, (baseExpressionGroup.vtable σ).call (.control c) f0 = .ok (r, f0)) ∧
    (∀ f0 : Frame σ Unit Unit,
      ∃ r, (baseExpressionGroup.vtable σ).call .getStepNumber f0 = .ok (r, f0)) ∧
    (∀ f0 : Frame σ Unit Unit,
      ∃ r, (baseExpressionGroup.vtable σ).call .getPhaseOutputUsesRadians f0 = .ok (r, f0)) ∧
    (∀ (calls : List Call) (s : σ),
      (baseExpressionGroup.vtable σ).runCalls calls s = .ok s) := by
  refine ⟨fun a b => rfl, ?_, ?_, ?_, ?_, baseExpressionGroup.runCalls_self σ⟩
  · obtain ⟨r, f, hrf⟩ := baseExpressionGroup.vtable_effect o
    exact ⟨r, _, hrf σ fr, rfl, rfl, rfl⟩
  · intro c f0
    exact ⟨_, baseExpressionGroup.vtable_control σ c f0⟩
  · intro f0
    exact ⟨_, baseExpressionGroup.vtable_getStepNumber σ f0⟩
  · intro f0
    exact ⟨_, baseExpressionGroup.vtable_getPhaseOutputUsesRadians σ f0⟩

/-- C10: for every quantity, every key, every receiving object and all prior contents of
the output parameters, the real and the complex default overloads agree under the embedding
of the reals into the complex numbers: both return the same boolean, `false`, and the
complex output is the real output taken as a complex number with imaginary part `0.0`. -/
theorem real_complex_defaults_agree (σ : Type) (q : Quantity) (s : σ) (k : q.Key)
    (priorR : Double) (priorC : ComplexDouble) :
    ∃ (b : Bool) (x : Double),
      (baseExpressionGroup.vtable σ).call (.query q .real)
          { self := s, key := k, retval := priorR }
        = .ok (b, { self := s, key := k, retval := x }) ∧
      (baseExpressionGroup.vtable σ).call (.query q .complex)
          { self := s, key := k, retval := priorC }
        = .ok (b, { self := s, key := k, retval := ComplexDouble.ofReal x }) ∧
      b = false := by
  refine ⟨false, Double.zero, ?_, ?_, rfl⟩
  · exact baseExpressionGroup.vtable_query σ q .real _
  · exact baseExpressionGroup.vtable_query σ q .complex _

end Util
end Xyce
